import Mathlib

/-!
Shallow embedding of the repository (a dependency-inversion example):
the provider crate (src/provider/src/lib.rs) and the consumer binary
(src/consumer/src/main.rs). Machine u8 values are embedded as Nat,
restricted to the byte range in the theorems where the range matters.
-/

namespace Mock

/-! Provider crate, src/provider/src/lib.rs -/

/-- Provider Input type: pub struct Payload(pub u8). -/
structure Payload where
  val : Nat
deriving DecidableEq

/-- Provider Output type: pub struct Outcome(pub bool). -/
structure Outcome where
  val : Bool
deriving DecidableEq

/-- Provider functionality: Outcome(payload.0 == 0). -/
def functionality (payload : Payload) : Outcome :=
  Outcome.mk (payload.val == 0)

/-! Consumer crate, src/consumer/src/main.rs -/

/-- Custom type: struct Byte(u8), deriving PartialEq and Eq. -/
structure Byte where
  val : Nat
deriving DecidableEq

/-- Another custom type: struct Boolean(bool), deriving PartialEq and Eq. -/
structure Boolean where
  val : Bool
deriving DecidableEq

/-- The derived PartialEq of Byte compares the wrapped fields. -/
def Byte.beq (a b : Byte) : Bool :=
  a.val == b.val

instance : BEq Byte :=
  BEq.mk Byte.beq

/-- The derived PartialEq of Boolean compares the wrapped fields. -/
def Boolean.beq (a b : Boolean) : Bool :=
  a.val == b.val

instance : BEq Boolean :=
  BEq.mk Boolean.beq

/-- The ByteService trait: one method, is_zero(&self, byte: Byte) -> Boolean.
A trait object (Box dyn ByteService) is embedded as a record holding the
method implementation. -/
structure ByteService where
  is_zero : Byte → Boolean

/-- Concrete implementation of the ByteService via the external dependency:
build a provider Payload from the wrapped integer, call the provider
functionality, and wrap its boolean outcome. -/
def ProviderAdapter.is_zero (byte : Byte) : Boolean :=
  let provider_payload := Payload.mk byte.val
  let provider_outcome := functionality provider_payload
  Boolean.mk provider_outcome.val

/-- ProviderAdapter as a trait object for the ByteService. -/
def ProviderAdapter.service : ByteService :=
  ByteService.mk ProviderAdapter.is_zero

/-- BooleanService: a unit struct. -/
structure BooleanService

/-- BooleanService method: is_true(&self, boolean: Boolean) -> bool,
returning the wrapped field. -/
def BooleanService.is_true (_ : BooleanService) (boolean : Boolean) : Bool :=
  boolean.val

/-- Main state holder: holds the injected ByteService trait object and a
BooleanService. -/
structure Application where
  byte_service : ByteService
  boolean_service : BooleanService

/-- Application::new: store the injected byte_service and the concrete
BooleanService. -/
def Application.new (byte_service : ByteService) : Application :=
  Application.mk byte_service BooleanService.mk

/-- The end-to-end workflow of the binary: classify the byte through the
held ByteService, then check the resulting Boolean with the held
BooleanService. -/
def Application.run_workflow (app : Application) (byte : Byte) : Bool :=
  app.boolean_service.is_true (app.byte_service.is_zero byte)

/-- Observable termination of the process: a printed success message with
normal exit, or a panic with a diagnostic message and abnormal exit. -/
inductive ProcessResult where
  | success : String → ProcessResult
  | panicked : String → ProcessResult
deriving DecidableEq

/-- Whether the process terminates with exit status 0. A Rust panic aborts
with a non-zero status. -/
def ProcessResult.exits_normally : ProcessResult → Bool
  | ProcessResult.success _ => true
  | ProcessResult.panicked _ => false

/-- Body of the bin entrypoint, parameterized by the service injected into
Application::new (main injects ProviderAdapter): build the Application,
classify the hardcoded Byte 0, and match on the checked boolean. -/
def mainEntry (byte_service : ByteService) : ProcessResult :=
  let app := Application.new byte_service
  let is_zero := app.byte_service.is_zero (Byte.mk 0)
  match app.boolean_service.is_true is_zero with
  | true => ProcessResult.success "All good."
  | false => ProcessResult.panicked "Whoops."

/-- Bin entrypoint: takes no input and runs mainEntry with the real
ProviderAdapter. -/
def main : ProcessResult :=
  mainEntry ProviderAdapter.service

/-! Test-double machinery. The MockByteService used by tests::with_mocks is
generated by the external mockall crate (not part of src/), so its
expectation semantics are modelled from the spec. -/

/-- Modelled from the spec: one mockall expectation on is_zero, as set up in
tests::with_mocks, with an equality matcher on the input Byte, an expected
call count (times), and a fixed returned Boolean. -/
structure Expectation where
  matcher : Byte
  times : Nat
  returned : Boolean
deriving DecidableEq

/-- Modelled from the spec: the state of a MockByteService is its list of
expectations, each paired with the number of calls it has absorbed so far. -/
structure MockByteService where
  expectations : List (Expectation × Nat)
deriving DecidableEq

/-- Modelled from the spec: dispatch one is_zero call against the
expectation list. The first expectation whose matcher equals the input
handles the call; it fails (none) if that expectation has already absorbed
its expected number of calls, and also fails when no expectation matches,
surfacing the mismatch at the point of the call. -/
def dispatchCall : List (Expectation × Nat) → Byte → Option (Boolean × List (Expectation × Nat))
  | [], _ => none
  | (e, used) :: rest, byte =>
    if e.matcher == byte then
      if used < e.times then
        some (e.returned, (e, used + 1) :: rest)
      else
        none
    else
      match dispatchCall rest byte with
      | some (r, rest2) => some (r, (e, used) :: rest2)
      | none => none

/-- Modelled from the spec: one is_zero call on the mock. -/
def MockByteService.call (mock : MockByteService) (byte : Byte) :
    Option (Boolean × MockByteService) :=
  match dispatchCall mock.expectations byte with
  | some (r, es) => some (r, MockByteService.mk es)
  | none => none

/-- Modelled from the spec: run a sequence of is_zero calls on the mock,
failing as soon as one call fails an expectation. -/
def MockByteService.run : MockByteService → List Byte → Option (List Boolean × MockByteService)
  | mock, [] => some ([], mock)
  | mock, byte :: rest =>
    match mock.call byte with
    | some (r, mock2) =>
      match mock2.run rest with
      | some (rs, mock3) => some (r :: rs, mock3)
      | none => none
    | none => none

/-- Modelled from the spec: a mock is satisfied when every expectation has
absorbed exactly its expected number of calls (checked when the mock is
dropped). -/
def MockByteService.satisfied (mock : MockByteService) : Bool :=
  mock.expectations.all fun p => p.2 == p.1.times

/-- The double configured in tests::with_mocks: expect is_zero exactly once
with Byte 0 returning Boolean false, and exactly once with Byte 1 returning
Boolean true. -/
def with_mocks_double : MockByteService :=
  MockByteService.mk
    [(Expectation.mk (Byte.mk 0) 1 (Boolean.mk false), 0),
     (Expectation.mk (Byte.mk 1) 1 (Boolean.mk true), 0)]

/-! Spec-side description used for the refinement claim about the adapter. -/

/-- Spec-side statement of the adapter algorithm, written from the spec
words: the result of classify(byte) is exactly the wrapped boolean of the
provider functionality applied to the payload built from the byte. -/
def adapter_spec (b : Nat) : Boolean :=
  Boolean.mk (functionality (Payload.mk b)).val

/-! Theorems settling the claims. -/

/-- C1: for every byte value b, the real adapter (ProviderAdapter) applied
to Byte b returns Boolean true when b = 0 and Boolean false when b is not 0. -/
theorem c1_real_adapter_classifies (b : Nat) (h : b < 256) :
    (b = 0 → ProviderAdapter.is_zero (Byte.mk b) = Boolean.mk true) ∧
    (b ≠ 0 → ProviderAdapter.is_zero (Byte.mk b) = Boolean.mk false) := by
  constructor
  · intro hb
    subst hb
    rfl
  · intro hb
    simp [ProviderAdapter.is_zero, functionality]
    exact hb

/-- Witness for C1, at the concrete bytes 0 and 7. -/
theorem c1_real_adapter_classifies_witness :
    ProviderAdapter.is_zero (Byte.mk 0) = Boolean.mk true ∧
    ProviderAdapter.is_zero (Byte.mk 7) = Boolean.mk false :=
  And.intro
    ((c1_real_adapter_classifies 0 (by decide)).1 rfl)
    ((c1_real_adapter_classifies 7 (by decide)).2 (by decide))

/-- C2: the end-to-end workflow through the real adapter and the boolean
helper yields true for input byte 0 and false for input byte 1. -/
theorem c2_end_to_end :
    (Application.new ProviderAdapter.service).run_workflow (Byte.mk 0) = true ∧
    (Application.new ProviderAdapter.service).run_workflow (Byte.mk 1) = false := by
  exact And.intro rfl rfl

/-- C3: main runs the workflow on the hardcoded Byte 0 and succeeds with
exit status 0 and the success message; in general the entrypoint body
prints the success message and exits normally exactly when the workflow
result is true, and panics with the fixed diagnostic, exiting abnormally,
when it is false. -/
theorem c3_entrypoint :
    main = ProcessResult.success "All good." ∧
    main.exits_normally = true ∧
    ∀ svc : ByteService,
      mainEntry svc =
        if (Application.new svc).run_workflow (Byte.mk 0) then
          ProcessResult.success "All good."
        else
          ProcessResult.panicked "Whoops." := by
  refine And.intro rfl (And.intro rfl ?_)
  intro svc
  unfold mainEntry Application.run_workflow
  rcases hb : svc.is_zero (Byte.mk 0) with ⟨v⟩
  cases v <;> simp [Application.new, BooleanService.is_true, hb]

/-- C4: for any injected ByteService, the Application stores exactly that
handle and the workflow observes exactly the values the handle returns; in
particular, for a double returning false on 0 and true on 1 the observed
values are false and true, the opposite of the real adapter, so the
Application never bypasses the injected handle. -/
theorem c4_substitutability (svc : ByteService)
    (h0 : svc.is_zero (Byte.mk 0) = Boolean.mk false)
    (h1 : svc.is_zero (Byte.mk 1) = Boolean.mk true) :
    (Application.new svc).byte_service = svc ∧
    (∀ b : Byte, (Application.new svc).byte_service.is_zero b = svc.is_zero b) ∧
    (Application.new svc).byte_service.is_zero (Byte.mk 0) = Boolean.mk false ∧
    (Application.new svc).byte_service.is_zero (Byte.mk 1) = Boolean.mk true ∧
    (Application.new svc).run_workflow (Byte.mk 0) = false ∧
    (Application.new svc).run_workflow (Byte.mk 1) = true := by
  refine And.intro rfl (And.intro (fun b => rfl) ?_)
  simp [Application.new, Application.run_workflow, BooleanService.is_true, h0, h1]

/-- A concrete test double returning Boolean false for Byte 0 and Boolean
true for Byte 1 (the configuration of tests::with_mocks). -/
def inverted_double : ByteService :=
  ByteService.mk fun byte => Boolean.mk (byte.val == 1)

/-- Witness for C4, with the concrete inverted double. -/
theorem c4_substitutability_witness :
    (Application.new inverted_double).run_workflow (Byte.mk 0) = false ∧
    (Application.new inverted_double).run_workflow (Byte.mk 1) = true :=
  And.intro
    (c4_substitutability inverted_double rfl rfl).2.2.2.2.1
    (c4_substitutability inverted_double rfl rfl).2.2.2.2.2

/-- C5: the adapter is pure shape conversion plus delegation: for every
byte value b its result is exactly the wrapped boolean of the provider
functionality on the payload built from b. -/
theorem c5_adapter_delegates (b : Nat) :
    ProviderAdapter.is_zero (Byte.mk b) = adapter_spec b := by
  rfl

/-- C6: the provider functionality is a pure total function: for every
payload value p it returns an Outcome whose wrapped boolean is true exactly
when p = 0. -/
theorem c6_functionality_total (p : Nat) (h : p < 256) :
    functionality (Payload.mk p) = Outcome.mk (decide (p = 0)) ∧
    ((functionality (Payload.mk p)).val = true ↔ p = 0) := by
  constructor
  · by_cases hp : p = 0
    · subst hp
      rfl
    · simp [functionality, hp]
  · simp [functionality]

/-- Witness for C6, at the concrete payloads 0 and 3. -/
theorem c6_functionality_total_witness :
    ((functionality (Payload.mk 0)).val = true ↔ (0 : Nat) = 0) ∧
    ((functionality (Payload.mk 3)).val = true ↔ (3 : Nat) = 0) :=
  And.intro (c6_functionality_total 0 (by decide)).2 (c6_functionality_total 3 (by decide)).2

/-- C7: the double of tests::with_mocks, expecting exactly one is_zero call
per distinct input, accepts the call sequence 0 then 1 (returning the
configured Booleans, with every expectation satisfied), and any third call
with either value fails the expectation at the point of mismatch. -/
theorem c7_call_count_contract :
    (∃ final : MockByteService,
      with_mocks_double.run [Byte.mk 0, Byte.mk 1] =
        some ([Boolean.mk false, Boolean.mk true], final) ∧
      final.satisfied = true) ∧
    with_mocks_double.run [Byte.mk 0, Byte.mk 1, Byte.mk 0] = none ∧
    with_mocks_double.run [Byte.mk 0, Byte.mk 1, Byte.mk 1] = none := by
  refine And.intro ⟨MockByteService.mk
    [(Expectation.mk (Byte.mk 0) 1 (Boolean.mk false), 1),
     (Expectation.mk (Byte.mk 1) 1 (Boolean.mk true), 1)], ?_, ?_⟩ (And.intro ?_ ?_) <;>
    decide

/-- C8: the BooleanService helper is an identity passthrough on the wrapped
value: is_true maps Boolean true to true and Boolean false to false, with
no state. -/
theorem c8_is_true_passthrough (s : BooleanService) :
    s.is_true (Boolean.mk true) = true ∧ s.is_true (Boolean.mk false) = false :=
  And.intro rfl rfl

/-- C9: equality on the wrapper types is structural: Byte x equals Byte y
exactly when x = y, and Boolean x equals Boolean y exactly when x = y. -/
theorem c9_structural_equality (x y : Nat) (b c : Bool) :
    ((Byte.mk x == Byte.mk y) = true ↔ x = y) ∧
    ((Boolean.mk b == Boolean.mk c) = true ↔ b = c) := by
  constructor
  · show Byte.beq (Byte.mk x) (Byte.mk y) = true ↔ x = y
    simp [Byte.beq]
  · show Boolean.beq (Boolean.mk b) (Boolean.mk c) = true ↔ b = c
    simp [Boolean.beq]

/-- C10: for every byte value b (all 256 values), the composed real-path
workflow, checking the adapter result with the boolean helper, is true
exactly when b = 0. -/
theorem c10_composed_workflow (b : Nat) (h : b < 256) :
    ((Application.new ProviderAdapter.service).run_workflow (Byte.mk b) = true ↔ b = 0) := by
  simp [Application.new, Application.run_workflow, BooleanService.is_true,
    ProviderAdapter.service, ProviderAdapter.is_zero, functionality]

/-- Witness for C10, at the concrete bytes 0 and 200. -/
theorem c10_composed_workflow_witness :
    ((Application.new ProviderAdapter.service).run_workflow (Byte.mk 0) = true ↔ (0 : Nat) = 0) ∧
    ((Application.new ProviderAdapter.service).run_workflow (Byte.mk 200) = true ↔ (200 : Nat) = 0) :=
  And.intro (c10_composed_workflow 0 (by decide)) (c10_composed_workflow 200 (by decide))

end Mock
